import Mathlib

/-!
Verification of the checked-error value type (`SensorError`, `SensorErrorWrapper`)
and the capture-replay time and seek interface of
`cepton_ros/third_party/cepton_sdk/include/cepton_sdk.hpp`.

Mutable C++ state is embedded by explicit state passing: every member function
that can mutate the object returns the object state after the call together with
its return value. Runtime-assert defect reports (`CEPTON_RUNTIME_ASSERT`, which
calls `throw_runtime_assert`) are embedded as the list of assertion messages a
call raises. The external C driver functions declared in `cepton_sdk.h` are not
part of this repository and are modelled from the spec where a claim needs them.
-/

namespace cepton_sdk

/-- Success code. The spec fixes `Success` as the unique zero value. -/
def CEPTON_SUCCESS : Int := 0

/-- Modelled from the spec: a representative member of the `CEPTON_ERROR_*`
category of the closed code set (operational failures such as invalid
argument), used by the modelled driver seek below. -/
def CEPTON_ERROR_INVALID_ARGUMENTS : Int := -8

/-- Modelled from the spec: the external C function `cepton_get_error_code_name`
(declared in `cepton_sdk.h`, which is not part of this repository). The spec
describes a closed set of codes partitioned into the unique zero success code,
`CEPTON_ERROR_*` codes and `CEPTON_FAULT_*` codes, where every code in the set
has a non-empty human-readable name and any code outside it yields the empty
string. A representative closed set is used. -/
def get_error_code_name (c : Int) : String :=
  if c = 0 then "CEPTON_SUCCESS"
  else if c = -1 then "CEPTON_ERROR_GENERIC"
  else if c = -8 then "CEPTON_ERROR_INVALID_ARGUMENTS"
  else if c = -1000 then "CEPTON_FAULT_INTERNAL"
  else ""

/-- Modelled from the spec: the external C function `cepton_is_error_code`,
true exactly on the codes whose name has the form CEPTON_ERROR_*. -/
def is_error_code (c : Int) : Bool := c == -1 || c == -8

/-- Modelled from the spec: the external C function `cepton_is_fault_code`,
true exactly on the codes whose name has the form CEPTON_FAULT_*. -/
def is_fault_code (c : Int) : Bool := c == -1000

/-- State of a `SensorError` value. `m_what` is the message stored in the
`std::runtime_error` base (built by `create_message`); `m_code` and `m_msg` are
the data members of the same names; `m_used` is the `value` flag of the nested
mutable `Used` member that records whether the error was checked. -/
structure SensorError where
  m_what : String
  m_code : Int
  m_msg : String
  m_used : Bool
deriving DecidableEq

/-- Embeds the static `SensorError::create_message(code, msg)`. -/
def create_message (code : Int) (msg : String) : String :=
  if code = 0 then ""
  else if msg = "" then get_error_code_name code
  else get_error_code_name code ++ ": " ++ msg

/-- Embeds the constructor `SensorError(code_, msg_)`: the constructed value
together with the list of runtime-assert defect reports raised during
construction (the body asserts that the code has a non-empty name). -/
def SensorError.construct (code : Int) (msg : String) : SensorError × List String :=
  (⟨create_message code msg, code, msg, false⟩,
   if get_error_code_name code = "" then ["Invalid error code!"] else [])

/-- Embeds the constructor `SensorError(code_)`, which delegates with an empty
message. -/
def SensorError.construct_code (code : Int) : SensorError × List String :=
  SensorError.construct code ("")

/-- Embeds the default constructor `SensorError()`, which delegates with
`CEPTON_SUCCESS`. -/
def SensorError.construct_default : SensorError × List String :=
  SensorError.construct_code CEPTON_SUCCESS

/-- Embeds the destructor: the list of runtime-assert defect reports raised at
destruction, from `CEPTON_RUNTIME_ASSERT(!m_code || m_used.value, ...)`. -/
def SensorError.destructor (e : SensorError) : List String :=
  if ¬(e.m_code = 0 ∨ e.m_used = true) then ["Error not checked!"] else []

/-- Embeds `SensorError::ignore()`: sets the mutable used flag. -/
def SensorError.ignore (e : SensorError) : SensorError :=
  { e with m_used := true }

/-- Embeds `SensorError::msg()`: returns the stored message and sets the used
flag as a side effect. -/
def SensorError.msg (e : SensorError) : String × SensorError :=
  (e.m_msg, { e with m_used := true })

/-- Embeds `SensorError::code()`: returns the wrapped code and sets the used
flag as a side effect. -/
def SensorError.code (e : SensorError) : Int × SensorError :=
  (e.m_code, { e with m_used := true })

/-- Embeds `operator SensorErrorCode()`, which returns `code()`. -/
def SensorError.operator_code (e : SensorError) : Int × SensorError :=
  e.code

/-- Embeds `operator bool()`, which returns `code()` converted to bool
(true exactly when the code is nonzero). -/
def SensorError.operator_bool (e : SensorError) : Bool × SensorError :=
  let p := e.code
  (p.1 != 0, p.2)

/-- Embeds `SensorError::name()`, which reads the code via `code()`. -/
def SensorError.name (e : SensorError) : String × SensorError :=
  let p := e.code
  (get_error_code_name p.1, p.2)

/-- Embeds `SensorError::is_error()`, which reads the code via `code()`. -/
def SensorError.is_error (e : SensorError) : Bool × SensorError :=
  let p := e.code
  (is_error_code p.1, p.2)

/-- Embeds `SensorError::is_fault()`, which reads the code via `code()`. -/
def SensorError.is_fault (e : SensorError) : Bool × SensorError :=
  let p := e.code
  (is_fault_code p.1, p.2)

/-- Embeds the implicit copy constructor `SensorError b(a)`: members are copied,
and the copy constructor of the nested `Used` type sets the source flag to true
while the flag of the new copy keeps its default initializer false. Returns the
pair (new copy, source after the copy). -/
def SensorError.copy_construct (src : SensorError) : SensorError × SensorError :=
  (⟨src.m_what, src.m_code, src.m_msg, false⟩, { src with m_used := true })

/-- Embeds the implicit copy assignment `b = a`: members are assigned, and
`Used::operator=` sets the source flag to true and does not touch the
destination flag. Returns the pair (destination after, source after). -/
def SensorError.copy_assign (dst src : SensorError) : SensorError × SensorError :=
  (⟨src.m_what, src.m_code, src.m_msg, dst.m_used⟩, { src with m_used := true })

/-- Embeds `SensorError b(std::move(a))`. The user-declared destructor
suppresses the implicit move operations of `SensorError`, so moving selects the
copy constructor; the observable effect is that of `copy_construct`. -/
def SensorError.move_construct (src : SensorError) : SensorError × SensorError :=
  SensorError.copy_construct src

/-- Embeds `b = std::move(a)`, which for this class selects the copy
assignment (see `move_construct`). -/
def SensorError.move_assign (dst src : SensorError) : SensorError × SensorError :=
  SensorError.copy_assign dst src

/-- State of a `SensorErrorWrapper`: the fixed context string and the stored
`SensorError` member. -/
structure SensorErrorWrapper where
  context : String
  error : SensorError
deriving DecidableEq

/-- Embeds the constructor `SensorErrorWrapper(context_)`: the `error` member is
default-constructed (a fresh Success value). -/
def SensorErrorWrapper.construct (c : String) : SensorErrorWrapper :=
  ⟨c, SensorError.construct_default.1⟩

/-- Embeds `SensorErrorWrapper::operator=(const SensorError &error_)`.
Both branches first evaluate `!error_` through `operator bool()`, which sets
the used flag of the assigned-from error. On a Success inner error, a fresh
default `SensorError` is copy-assigned into the member (the copy assignment
leaves the member used flag untouched and marks the temporary, which is then
destroyed without defect). Otherwise the inner message and code are read (also
setting the used flag) and a new error with the concatenated message is
copy-assigned into the member. Returns (wrapper after, assigned-from error
after). -/
def SensorErrorWrapper.assign (w : SensorErrorWrapper) (e : SensorError) :
    SensorErrorWrapper × SensorError :=
  let p := e.operator_bool
  if !p.1 then
    let t := SensorError.construct_default.1
    ({ w with error := ⟨t.m_what, t.m_code, t.m_msg, w.error.m_used⟩ }, p.2)
  else
    let q := p.2.msg
    let m := w.context ++ "\n\t" ++ q.1
    let r := q.2.code
    let t := (SensorError.construct r.1 m).1
    ({ w with error := ⟨t.m_what, t.m_code, t.m_msg, w.error.m_used⟩ }, r.2)

/-- Embeds `SensorErrorWrapper::operator bool()`, which converts the stored
error to bool (and thereby acknowledges it). -/
def SensorErrorWrapper.operator_bool (w : SensorErrorWrapper) :
    Bool × SensorErrorWrapper :=
  let p := w.error.operator_bool
  (p.1, { w with error := p.2 })

namespace capture_replay

/-- Modelled from the spec: the state of an open replay session held by the
external C driver (`cepton_sdk.h` is not part of this repository). It carries
the fixed capture start timestamp (unix microseconds, a uint64), the current
read position (elapsed seconds, a float modelled exactly as a rational), and
the total capture length (seconds). -/
structure ReplayState where
  start_time : ℕ
  position : ℚ
  length : ℚ
deriving DecidableEq

/-- Embeds `capture_replay::get_start_time()`, reading the fixed start
timestamp from the driver. -/
def get_start_time (s : ReplayState) : ℕ := s.start_time

/-- Embeds `capture_replay::get_position()`, reading the current position from
the driver. -/
def get_position (s : ReplayState) : ℚ := s.position

/-- The C++ conversion `uint64_t(x)` applied to a nonnegative float: truncation
toward zero, which for nonnegative x coincides with the floor (for x in the
interval (-1, 0] it is 0, which the floor composed with toNat also gives; more
negative values are undefined behaviour in the source and never arise since
replay positions are nonnegative). -/
def uint64_of_float (q : ℚ) : ℕ := (⌊q⌋).toNat

/-- Embeds `capture_replay::get_time()`:
`get_start_time() + uint64_t(1e6f * get_position())`, with the float product
modelled as the exact rational product. -/
def get_time (s : ReplayState) : ℕ :=
  get_start_time s + uint64_of_float (1000000 * get_position s)

/-- Modelled from the spec: the external driver function
`cepton_sdk_capture_replay_seek`. A target position is valid exactly when it
lies in [0, length); a valid seek sets the position and reports success, an
invalid one reports an invalid-argument error and leaves the state unchanged.
The reported code is what the following `get_error()` call wraps. -/
def cepton_sdk_capture_replay_seek (s : ReplayState) (p : ℚ) : ReplayState × Int :=
  if 0 ≤ p ∧ p < s.length then ({ s with position := p }, CEPTON_SUCCESS)
  else (s, CEPTON_ERROR_INVALID_ARGUMENTS)

/-- Embeds `capture_replay::seek(position)`: calls the driver seek, then
returns `get_error()`, a `SensorError` wrapping the driver-reported code (the
driver message is modelled as empty). -/
def seek (s : ReplayState) (position : ℚ) : ReplayState × SensorError :=
  let p := cepton_sdk_capture_replay_seek s position
  (p.1, (SensorError.construct p.2 ("")).1)

/-- Embeds `capture_replay::seek_relative(position)`: the parameter is
incremented by `get_position()`, then the same driver seek and `get_error()`
as in `seek`. -/
def seek_relative (s : ReplayState) (position : ℚ) : ReplayState × SensorError :=
  let target := position + get_position s
  let p := cepton_sdk_capture_replay_seek s target
  (p.1, (SensorError.construct p.2 ("")).1)

end capture_replay

end cepton_sdk

namespace cepton_sdk

/-- C1: destroying a `SensorError` raises the "Error not checked!" defect report
exactly when the wrapped code is not Success and the value has not been
acknowledged; the report is raised at most once per destruction; a
default-constructed Success value, and any acknowledged value, is destroyed
with no defect. -/
theorem destructor_defect_iff_unchecked (e : SensorError) :
    (e.destructor ≠ [] ↔ e.m_code ≠ 0 ∧ e.m_used = false) ∧
    e.destructor.length ≤ 1 ∧
    (e.destructor = [] ∨ e.destructor = ["Error not checked!"]) ∧
    SensorError.construct_default.1.destructor = [] ∧
    e.ignore.destructor = [] := by
  obtain ⟨w, c, m, u⟩ := e
  by_cases hc : c = 0 <;> cases u <;>
    simp [SensorError.destructor, SensorError.ignore, hc,
      SensorError.construct_default, SensorError.construct_code,
      SensorError.construct, CEPTON_SUCCESS, get_error_code_name]

/-- C2: copy construction, copy assignment and the move operations (which this
class resolves to the copy operations) all mark the source as acknowledged, so
the source can afterwards be destroyed with no defect regardless of its code. -/
theorem copy_move_acknowledge_source (a b : SensorError) :
    (a.copy_construct.2.m_used = true ∧ a.copy_construct.2.destructor = []) ∧
    ((b.copy_assign a).2.m_used = true ∧ (b.copy_assign a).2.destructor = []) ∧
    (a.move_construct.2.m_used = true ∧ a.move_construct.2.destructor = []) ∧
    ((b.move_assign a).2.m_used = true ∧ (b.move_assign a).2.destructor = []) := by
  simp [SensorError.copy_construct, SensorError.copy_assign,
    SensorError.move_construct, SensorError.move_assign, SensorError.destructor]

/-- C3: assignment leaves the acknowledged flag of the destination unchanged:
an already acknowledged destination assigned from an un-inspected non-success
error stays acknowledged, takes the non-success code, and is destroyed with no
defect even though the new code was never inspected through it. -/
theorem assign_keeps_dest_flag (a b : SensorError)
    (hb : b.m_used = true) (ha : a.m_used = false) (hc : a.m_code ≠ 0) :
    (b.copy_assign a).1.m_used = true ∧
    (b.copy_assign a).1.m_code = a.m_code ∧
    (b.copy_assign a).1.destructor = [] ∧
    (b.move_assign a).1.m_used = true ∧
    (b.move_assign a).1.destructor = [] := by
  simp [SensorError.copy_assign, SensorError.move_assign, SensorError.destructor, hb]

theorem assign_keeps_dest_flag_witness :
    ((⟨"", 0, "", true⟩ : SensorError).m_used = true ∧
     (⟨"E", -8, "x", false⟩ : SensorError).m_used = false ∧
     (⟨"E", -8, "x", false⟩ : SensorError).m_code ≠ 0) ∧
    (((⟨"", 0, "", true⟩ : SensorError).copy_assign ⟨"E", -8, "x", false⟩).1.m_used = true ∧
     ((⟨"", 0, "", true⟩ : SensorError).copy_assign ⟨"E", -8, "x", false⟩).1.m_code
       = (⟨"E", -8, "x", false⟩ : SensorError).m_code ∧
     ((⟨"", 0, "", true⟩ : SensorError).copy_assign ⟨"E", -8, "x", false⟩).1.destructor = [] ∧
     ((⟨"", 0, "", true⟩ : SensorError).move_assign ⟨"E", -8, "x", false⟩).1.m_used = true ∧
     ((⟨"", 0, "", true⟩ : SensorError).move_assign ⟨"E", -8, "x", false⟩).1.destructor = []) :=
  ⟨by decide,
   assign_keeps_dest_flag ⟨"E", -8, "x", false⟩ ⟨"", 0, "", true⟩
     (by decide) (by decide) (by decide)⟩

/-- C4 (counterexample): the claim that `is_error()` leaves the acknowledged
flag unchanged is false: on an un-acknowledged generic error, calling
`is_error` flips the flag to true. -/
theorem is_error_acknowledges_cex :
    ¬ ((SensorError.is_error ⟨"CEPTON_ERROR_GENERIC", -1, "", false⟩).2.m_used
        = (⟨"CEPTON_ERROR_GENERIC", -1, "", false⟩ : SensorError).m_used) := by
  decide

/-- C4 (amended): `is_error()` and `is_fault()` return the classification of
the wrapped code, but they do acknowledge the value: both read the code through
`code()` and so set the acknowledged flag. -/
theorem is_error_is_fault_classify_and_acknowledge (e : SensorError) :
    e.is_error = (is_error_code e.m_code, { e with m_used := true }) ∧
    e.is_fault = (is_fault_code e.m_code, { e with m_used := true }) := by
  simp [SensorError.is_error, SensorError.is_fault, SensorError.code]

/-- C5: `code()` returns the wrapped code, `msg()` returns the stored message,
the bool conversion is true exactly when the code is not Success, and each of
the three sets the acknowledged flag as a side effect. -/
theorem read_accessors_acknowledge (e : SensorError) :
    e.code = (e.m_code, { e with m_used := true }) ∧
    e.msg = (e.m_msg, { e with m_used := true }) ∧
    e.operator_bool.2 = { e with m_used := true } ∧
    (e.operator_bool.1 = true ↔ e.m_code ≠ 0) := by
  simp [SensorError.code, SensorError.msg, SensorError.operator_bool, bne_iff_ne]

/-- C6: after assigning an error e into a wrapper with context c, the wrapper
keeps its context; if the code of e is Success the stored error is a Success
value whose destruction raises no defect (shown for every stored-flag state of
the wrapper and every inner message); otherwise the stored error carries the
same code as e and the message c ++ "\n\t" ++ (message of e). -/
theorem wrapper_assign_result (w : SensorErrorWrapper) (e : SensorError)
    (wh m : String) (u : Bool) :
    (w.assign e).1.context = w.context ∧
    (w.assign e).1.error.m_code = (if e.m_code = 0 then 0 else e.m_code) ∧
    (w.assign e).1.error.m_msg =
      (if e.m_code = 0 then "" else w.context ++ "\n\t" ++ e.m_msg) ∧
    (w.assign ⟨wh, 0, m, u⟩).1.error.m_code = 0 ∧
    (w.assign ⟨wh, 0, m, u⟩).1.error.destructor = [] := by
  by_cases h : e.m_code = 0 <;>
    simp [SensorErrorWrapper.assign, SensorError.operator_bool,
      SensorError.code, SensorError.msg, SensorError.destructor,
      SensorError.construct_default, SensorError.construct_code,
      SensorError.construct, CEPTON_SUCCESS, h]

/-- C9: the constructor raises the "Invalid error code!" runtime assertion
exactly when the name of the code is empty; a construction that raises no
defect wraps a code with a non-empty name. The constructed value carries the
given code and message either way. -/
theorem construct_invalid_code_defect (code : Int) (msg : String) :
    ((SensorError.construct code msg).2 ≠ [] ↔ get_error_code_name code = "") ∧
    ((SensorError.construct code msg).2 = [] ∨
     (SensorError.construct code msg).2 = ["Invalid error code!"]) ∧
    (SensorError.construct code msg).1.m_code = code ∧
    (SensorError.construct code msg).1.m_msg = msg := by
  by_cases h : get_error_code_name code = "" <;> simp [SensorError.construct, h]

/-- C10: wrapper assignment acknowledges the assigned-from error in both
branches (through the bool conversion, and additionally through msg and code in
the non-success branch), leaving its code and message intact, so the source can
be destroyed afterwards without the unchecked-error defect. -/
theorem wrapper_assign_acknowledges_source (w : SensorErrorWrapper) (e : SensorError) :
    (w.assign e).2.m_used = true ∧
    (w.assign e).2.m_code = e.m_code ∧
    (w.assign e).2.m_msg = e.m_msg ∧
    (w.assign e).2.destructor = [] := by
  by_cases h : e.m_code = 0 <;>
    simp [SensorErrorWrapper.assign, SensorError.operator_bool,
      SensorError.code, SensorError.msg, SensorError.destructor, h]

/-- C7 (counterexample): `get_time()` does not round the microsecond offset to
the nearest integer: at position 1.9e-6 seconds (with start time 0) the code
returns 0 + 1, while start time plus the rounded offset round(1.9) would be
0 + 2. -/
theorem get_time_not_round_cex :
    ¬ (capture_replay.get_time ⟨0, 19/10000000, 1⟩ =
        capture_replay.get_start_time ⟨0, 19/10000000, 1⟩ +
          (round (capture_replay.get_position ⟨0, 19/10000000, 1⟩ * 1000000)).toNat) := by
  have h1 : ⌊(1000000 : ℚ) * (19 / 10000000)⌋ = 1 := by
    rw [Int.floor_eq_iff]
    norm_num
  have h2 : round ((19 / 10000000 : ℚ) * 1000000) = 2 := by
    rw [round_eq, Int.floor_eq_iff]
    norm_num
  simp [capture_replay.get_time, capture_replay.get_start_time,
    capture_replay.get_position, capture_replay.uint64_of_float, h1, h2]

/-- C7 (amended): `get_time()` returns the start time plus the position in
elapsed seconds converted to microseconds by truncation (floor), not by
rounding: the microsecond offset it adds is the unique integer n with
n ≤ position * 1e6 < n + 1. -/
theorem get_time_truncates (s : capture_replay.ReplayState) (h : 0 ≤ s.position) :
    capture_replay.get_time s
      = capture_replay.get_start_time s + (⌊1000000 * s.position⌋).toNat ∧
    ((capture_replay.get_time s - capture_replay.get_start_time s : ℕ) : ℚ)
      ≤ 1000000 * s.position ∧
    1000000 * s.position
      < ((capture_replay.get_time s - capture_replay.get_start_time s : ℕ) : ℚ) + 1 := by
  have hpos : (0 : ℚ) ≤ 1000000 * s.position := by
    have : (0 : ℚ) ≤ 1000000 := by norm_num
    exact mul_nonneg this h
  have hfl : 0 ≤ ⌊(1000000 : ℚ) * s.position⌋ := Int.floor_nonneg.mpr hpos
  have hsub : capture_replay.get_time s - capture_replay.get_start_time s
      = (⌊(1000000 : ℚ) * s.position⌋).toNat := by
    simp [capture_replay.get_time, capture_replay.uint64_of_float,
      capture_replay.get_position]
  have hcast : (((⌊(1000000 : ℚ) * s.position⌋).toNat : ℕ) : ℚ)
      = ((⌊(1000000 : ℚ) * s.position⌋ : ℤ) : ℚ) := by
    exact_mod_cast Int.toNat_of_nonneg hfl
  refine ⟨rfl, ?_, ?_⟩
  · rw [hsub, hcast]
    exact Int.floor_le _
  · rw [hsub, hcast]
    exact Int.lt_floor_add_one _

theorem get_time_truncates_witness :
    (0 : ℚ) ≤ (⟨7, 19/10000000, 1⟩ : capture_replay.ReplayState).position ∧
    (capture_replay.get_time ⟨7, 19/10000000, 1⟩
      = capture_replay.get_start_time ⟨7, 19/10000000, 1⟩ +
          (⌊1000000 * (⟨7, 19/10000000, 1⟩ : capture_replay.ReplayState).position⌋).toNat ∧
     ((capture_replay.get_time ⟨7, 19/10000000, 1⟩
        - capture_replay.get_start_time ⟨7, 19/10000000, 1⟩ : ℕ) : ℚ)
      ≤ 1000000 * (⟨7, 19/10000000, 1⟩ : capture_replay.ReplayState).position ∧
     1000000 * (⟨7, 19/10000000, 1⟩ : capture_replay.ReplayState).position
      < ((capture_replay.get_time ⟨7, 19/10000000, 1⟩
          - capture_replay.get_start_time ⟨7, 19/10000000, 1⟩ : ℕ) : ℚ) + 1) :=
  ⟨by norm_num, get_time_truncates ⟨7, 19/10000000, 1⟩ (by norm_num)⟩

/-- C8: `seek_relative(delta)` returns the same state and the same wrapped
error as `seek(p + delta)` where p is the position read at the start of the
call, and it succeeds exactly when the resulting absolute position lies in
[0, length). -/
theorem seek_relative_eq_seek (s : capture_replay.ReplayState) (delta : ℚ) :
    capture_replay.seek_relative s delta
      = capture_replay.seek s (capture_replay.get_position s + delta) ∧
    ((capture_replay.seek_relative s delta).2.m_code = 0 ↔
      0 ≤ capture_replay.get_position s + delta ∧
      capture_replay.get_position s + delta < s.length) := by
  have hc : delta + capture_replay.get_position s
      = capture_replay.get_position s + delta := add_comm _ _
  constructor
  · unfold capture_replay.seek_relative capture_replay.seek
    rw [hc]
  · unfold capture_replay.seek_relative
    rw [hc]
    unfold capture_replay.cepton_sdk_capture_replay_seek
    by_cases hin : 0 ≤ capture_replay.get_position s + delta ∧
        capture_replay.get_position s + delta < s.length
    · simp [hin, SensorError.construct, CEPTON_SUCCESS]
    · simp [hin, SensorError.construct, CEPTON_ERROR_INVALID_ARGUMENTS]

end cepton_sdk
